import Mathlib

/-
Verification of the conversational ticket-intake state machine
(gem/app: slack_handler.py, jira_client.py, nlp_service.py, mcp_models.py).

The embedding translates the pydantic data model of mcp_models.py into Lean
structures, and the two inbound-event handlers of slack_handler.py
(handle_message_im and handle_interactive_action, plus the helper
_ask_for_next_required_field) into pure Lean functions.  Effects are made
explicit:

* the per-identity entry of the in-memory conversation_state_store becomes an
  Option BotStateData value threaded through each handler (every store access
  in the source uses the single key user_id-channel_id of the inbound event,
  so the one-entry view is exact for per-identity properties);
* outbound Slack calls (chat_postMessage / chat_update) become a list of
  OutMsg values; block payloads are abstracted to the deterministic builder
  applied to its context argument, except for the dynamic-field select
  options, whose construction (display name / option value / 75-character
  truncation, slack_handler.py lines 98-106) is translated literally because
  the round-trip property depends on it;
* external collaborators (language model, Jira) are inputs: an Env record
  holds the result each call site would receive, and create_jira_ticket of
  jira_client.py is additionally translated as its own function because its
  body (field-map assembly before its try block) decides two of the claims;
* Python exceptions are values: PyErr, with Except for fallible computations.
  Wherever the source wraps a region in try/except, the embedding matches on
  the Except value and takes the except branch on error.

Pydantic model_validate is modelled as exact-variant decoding on the
ContextData sum: among the five stage-context models, the required field sets
are pairwise non-inclusive (each model requires at least one field absent
from every other model's dump), so a stored dump validates as exactly its own
model and no other; BotStateData itself always re-validates since the store
only ever holds BotStateData dumps.
-/

namespace SlackJira

/-! ## Python semantics helpers -/

/-- Python truthiness of an optional string: None and the empty string are
falsy. -/
def pyTruthyS : Option String → Bool
  | none => false
  | some s => s != ""

/-- Python a or b for optional strings: a when truthy, else b. -/
def pyOrS (a b : Option String) : Option String :=
  if pyTruthyS a then a else b

/-- Python truthiness of an optional list: None and the empty list are
falsy. -/
def pyTruthyL {α : Type} : Option (List α) → Bool
  | none => false
  | some l => !l.isEmpty

/-- Python str(x) of an optional string, as used in an f-string: None renders
as the four letters None. -/
def pyStr : Option String → String
  | none => "None"
  | some s => s

/-- Python str.strip(): drop leading and trailing whitespace (ASCII
whitespace; Python additionally strips some rarer unicode spaces, which do
not occur in any text handled here). -/
def pyStrip (s : String) : String :=
  String.mk (((s.data.dropWhile Char.isWhitespace).reverse.dropWhile
    Char.isWhitespace).reverse)

/-- Python s[:n], by characters. -/
def pyTake (s : String) (n : Nat) : String := String.mk (s.data.take n)

/-- Python s.startswith(stem), by character comparison. -/
def pyStartswith (s stem : String) : Bool :=
  stem.data.isPrefixOf s.data

/-- One fuel-indexed pass of Python str.replace over a character list:
each occurrence of pat is replaced by repl, scanning left to right (pat is
never empty at the call sites here; the fuel is the list length, enough for
every step to consume at least one character). -/
def replaceAllAux (pat repl : List Char) : Nat → List Char → List Char
  | 0, l => l
  | _ + 1, [] => []
  | n + 1, c :: cs =>
    if pat.isPrefixOf (c :: cs) && !pat.isEmpty then
      repl ++ replaceAllAux pat repl n ((c :: cs).drop pat.length)
    else
      c :: replaceAllAux pat repl n cs

/-- Python s.replace(pat, repl): replace every occurrence of pat. -/
def pyReplace (s pat repl : String) : String :=
  String.mk (replaceAllAux pat.data repl.data s.data.length s.data)

/-- Python dict assignment d[k] = v on a string-keyed dict: replaces the
value at an existing key in place, otherwise appends the new key. -/
def dictInsert (d : List (String × Option String)) (k : String) (v : Option String) :
    List (String × Option String) :=
  if d.any (fun p => p.1 == k) then
    d.map (fun p => if p.1 == k then (k, v) else p)
  else
    d ++ [(k, v)]

/-- Python dict lookup d.get(k). -/
def dictGet (d : List (String × Option String)) (k : String) : Option (Option String) :=
  (d.find? (fun p => p.1 == k)).map (·.2)

/-- Python exceptions that the translated code can raise. -/
inductive PyErr where
  /-- AttributeError from accessing an undeclared pydantic model field. -/
  | attributeError (attr : String)
  /-- JIRAError raised by the jira library. -/
  | jiraError
  /-- Any other exception. -/
  | otherError
  deriving Repr, DecidableEq

/-! ## Data model (mcp_models.py) -/

/-- SlackContext (mcp_models.py). -/
structure SlackContext where
  user_id : String
  channel_id : String
  team_id : Option String := none
  thread_ts : Option String := none
  deriving Repr, DecidableEq

/-- ParsedTicketDetails (mcp_models.py): NLP-extracted draft. -/
structure ParsedTicketDetails where
  summary : String
  description : String
  issue_type : String
  deriving Repr, DecidableEq

/-- EnrichedTicketContext (mcp_models.py). -/
structure EnrichedTicketContext where
  slack_context : SlackContext
  raw_request : String
  parsed_ticket_details : ParsedTicketDetails
  deriving Repr, DecidableEq

/-- JiraProject (mcp_models.py). -/
structure JiraProject where
  id : String
  key : String
  name : String
  deriving Repr, DecidableEq

/-- JiraIssueType (mcp_models.py). -/
structure JiraIssueType where
  id : String
  name : String
  description : Option String := none
  icon_url : Option String := none
  deriving Repr, DecidableEq

/-- AllowedValue (mcp_models.py): one enumerated value of a required field. -/
structure AllowedValue where
  id : Option String := none
  name : Option String := none
  value : Option String := none
  deriving Repr, DecidableEq

/-- RequiredFieldDetail (mcp_models.py): one mandatory field descriptor. -/
structure RequiredFieldDetail where
  field_id : String
  name : String
  is_custom : Bool := false
  allowed_values : Option (List AllowedValue) := none
  deriving Repr, DecidableEq

/-- ProjectSelectionContext (mcp_models.py). -/
structure ProjectSelectionContext where
  enriched_ticket_context : EnrichedTicketContext
  available_projects : List JiraProject
  status : String := "pending_project_selection"
  deriving Repr, DecidableEq

/-- IssueTypeSelectionContext (mcp_models.py). -/
structure IssueTypeSelectionContext where
  enriched_ticket_context : EnrichedTicketContext
  selected_project : JiraProject
  available_issue_types : List JiraIssueType
  status : String := "pending_issue_type_selection"
  deriving Repr, DecidableEq

/-- SequentialFieldsInputContext (mcp_models.py).  The collected value map is
an insertion-ordered string-keyed dict; values are Python strings or None. -/
structure SequentialFieldsInputContext where
  enriched_ticket_context : EnrichedTicketContext
  selected_project : JiraProject
  selected_issue_type : JiraIssueType
  fields_to_collect_sequentially : List RequiredFieldDetail
  current_field_prompt_index : Nat := 0
  collected_dynamic_field_values : List (String × Option String) := []
  status : String := "pending_sequential_field_input"
  deriving Repr, DecidableEq

/-- SimilarTicketInfo (mcp_models.py).  The optional float score is omitted:
search_similar_jira_tickets (jira_client.py) never populates it and no
handler reads it except for display. -/
structure SimilarTicketInfo where
  key : String
  summary : String
  url : String
  deriving Repr, DecidableEq

/-- SimilarityCheckContext (mcp_models.py). -/
structure SimilarityCheckContext where
  slack_context : SlackContext
  raw_request : String
  parsed_ticket_details : ParsedTicketDetails
  selected_project : JiraProject
  selected_issue_type : JiraIssueType
  dynamic_fields_data : Option (List (String × Option String)) := none
  similar_tickets_found : List SimilarTicketInfo := []
  status : String := "pending_user_decision_on_similarity"
  deriving Repr, DecidableEq

/-- JiraTicketData (mcp_models.py).  These are ALL of its declared fields;
in particular there is no brand and no environment field. -/
structure JiraTicketData where
  project_key : String
  summary : String
  description : String
  issue_type_name : String
  reporter_email : Option String := none
  components : Option (List (List (String × String))) := none
  dynamic_fields : Option (List (String × Option String)) := none
  deriving Repr, DecidableEq

/-- FinalTicketCreationContext (mcp_models.py). -/
structure FinalTicketCreationContext where
  slack_context : SlackContext
  jira_ticket_data : JiraTicketData
  status : String := "ready_for_creation"
  deriving Repr, DecidableEq

/-- CreatedTicketInfo (mcp_models.py). -/
structure CreatedTicketInfo where
  key : String
  id : String
  url : String
  deriving Repr, DecidableEq

/-- The tagged union of stage context dumps that the store can hold in
BotStateData.context_data.  Decoding a dump with model_validate succeeds
exactly for the variant it was dumped from (see the header comment). -/
inductive ContextData where
  | project (ctx : ProjectSelectionContext)
  | issueType (ctx : IssueTypeSelectionContext)
  | sequential (ctx : SequentialFieldsInputContext)
  | similarity (ctx : SimilarityCheckContext)
  | final (ctx : FinalTicketCreationContext)
  deriving Repr, DecidableEq

/-- BotStateData (mcp_models.py); timestamp is time.time(), modelled as a
natural number supplied by the environment. -/
structure BotStateData where
  user_id : String
  channel_id : String
  current_mcp_stage : Option String := none
  context_data : ContextData
  timestamp : Nat
  deriving Repr, DecidableEq

/-- ProjectSelectionContext.model_validate on a stored dump. -/
def validateProjectSelection : ContextData → Option ProjectSelectionContext
  | ContextData.project c => some c
  | _ => none

/-- IssueTypeSelectionContext.model_validate on a stored dump. -/
def validateIssueTypeSelection : ContextData → Option IssueTypeSelectionContext
  | ContextData.issueType c => some c
  | _ => none

/-- SequentialFieldsInputContext.model_validate on a stored dump. -/
def validateSequential : ContextData → Option SequentialFieldsInputContext
  | ContextData.sequential c => some c
  | _ => none

/-- SimilarityCheckContext.model_validate on a stored dump. -/
def validateSimilarity : ContextData → Option SimilarityCheckContext
  | ContextData.similarity c => some c
  | _ => none

/-- FinalTicketCreationContext.model_validate on a stored dump. -/
def validateFinal : ContextData → Option FinalTicketCreationContext
  | ContextData.final c => some c
  | _ => none

/-! ## jira_client.py: create_jira_ticket -/

/-- A value in the fields dict passed to client.create_issue. -/
inductive JFieldValue where
  /-- A plain string value. -/
  | str (s : String)
  /-- A one-key dict of the form key: ... (the project entry). -/
  | keyRef (key : String)
  /-- A one-key dict of the form name: ... (the issuetype entry). -/
  | nameRef (name : String)
  deriving Repr, DecidableEq

/-- The fields dict assembled by create_jira_ticket before its try block
(jira_client.py lines 122-127): project, summary, description, issuetype. -/
def createTicketBaseFields (td : JiraTicketData) : List (String × JFieldValue) :=
  [("project", JFieldValue.keyRef td.project_key),
   ("summary", JFieldValue.str td.summary),
   ("description", JFieldValue.str td.description),
   ("issuetype", JFieldValue.nameRef td.issue_type_name)]

/-- The attribute access ticket_data.brand (jira_client.py line 129).
JiraTicketData declares no field named brand, so pydantic BaseModel attribute
lookup raises AttributeError for every instance. -/
def tdBrand (_td : JiraTicketData) : Except PyErr (Option String) :=
  Except.error (PyErr.attributeError "brand")

/-- The attribute access ticket_data.environment (jira_client.py line 135);
JiraTicketData declares no field named environment either. -/
def tdEnvironment (_td : JiraTicketData) : Except PyErr (Option String) :=
  Except.error (PyErr.attributeError "environment")

/-- create_jira_ticket (jira_client.py lines 115-162).  clientAvailable is
whether get_jira_client returned a client; trackerResult is what the
client.create_issue call inside the try block would yield for the assembled
fields.  The fields assembly (lines 122-146) runs BEFORE the try block, so
an exception there propagates to the caller as Except.error; the try block
itself converts JIRAError and any other exception into a None return. -/
def create_jira_ticket (clientAvailable : Bool)
    (trackerResult : Except PyErr CreatedTicketInfo) (td : JiraTicketData) :
    Except PyErr (Option CreatedTicketInfo) :=
  if !clientAvailable then
    Except.ok none
  else
    let _fields0 := createTicketBaseFields td
    match tdBrand td with
    | Except.error e => Except.error e
    | Except.ok brand =>
      let _fields1 := match brand with
        | some b => _fields0 ++ [("customfield_11997", JFieldValue.str b)]
        | none => _fields0
      match tdEnvironment td with
      | Except.error e => Except.error e
      | Except.ok env =>
        let _fields2 := match env with
          | some v => _fields1 ++ [("customfield_11800", JFieldValue.str v)]
          | none => _fields1
        match trackerResult with
        | Except.ok info => Except.ok (some info)
        | Except.error _ => Except.ok none

/-- get_available_jira_projects (jira_client.py lines 29-48): returns [] when
the client is unavailable, otherwise wraps the raw projects call in
try/except and returns [] on any exception. -/
def get_available_jira_projects (clientAvailable : Bool)
    (rawCall : Except PyErr (List JiraProject)) : List JiraProject :=
  if !clientAvailable then []
  else
    match rawCall with
    | Except.ok l => l
    | Except.error _ => []

/-- get_project_creatable_issue_types (jira_client.py lines 50-112): same
catch-all shape, returning [] on an unavailable client or any exception. -/
def get_project_creatable_issue_types (clientAvailable : Bool)
    (rawCall : Except PyErr (List JiraIssueType)) : List JiraIssueType :=
  if !clientAvailable then []
  else
    match rawCall with
    | Except.ok l => l
    | Except.error _ => []

/-- search_similar_jira_tickets (jira_client.py lines 164-221): returns [] on
an unavailable client or any exception from the search call. -/
def search_similar_jira_tickets (clientAvailable : Bool)
    (rawCall : Except PyErr (List SimilarTicketInfo)) : List SimilarTicketInfo :=
  if !clientAvailable then []
  else
    match rawCall with
    | Except.ok l => l
    | Except.error _ => []

/-- extract_ticket_details_from_text (nlp_service.py lines 39-106): the whole
body after the client check sits inside try/except Exception, and every
parse-failure branch returns None, so the operation yields an optional
result and never raises. -/
def extract_ticket_details_from_text (clientAvailable : Bool)
    (rawCall : Except PyErr (Option ParsedTicketDetails)) : Option ParsedTicketDetails :=
  if !clientAvailable then none
  else
    match rawCall with
    | Except.ok r => r
    | Except.error _ => none

/-! ## Outbound messages and step results -/

/-- The dropdown option built from one AllowedValue. -/
structure SelectOption where
  text : String
  value : String
  deriving Repr, DecidableEq

/-- The option-construction loop of _ask_for_next_required_field
(slack_handler.py lines 99-106) for one AllowedValue: display name is
val.name or val.value or val.id or the literal Unknown Option, shortened to
72 characters plus an ellipsis when longer than 75; option value is val.id
or val.value or val.name, truncated to 75 characters, and the option is
dropped entirely when that value is falsy. -/
def optionOfAllowedValue (val : AllowedValue) : Option SelectOption :=
  let display0 := match pyOrS val.name (pyOrS val.value val.id) with
    | some s => if s = "" then "Unknown Option" else s
    | none => "Unknown Option"
  let display := if display0.length > 75 then pyTake display0 72 ++ "..." else display0
  let optValue := pyOrS val.id (pyOrS val.value val.name)
  match optValue with
  | some v =>
    if v = "" then none
    else some { text := display, value := if v.length > 75 then pyTake v 75 else v }
  | none => none

/-- All options rendered for a field's allowed values, in order. -/
def buildFieldOptions (avs : List AllowedValue) : List SelectOption :=
  avs.filterMap optionOfAllowedValue

/-- One outbound Slack call.  chat_postMessage and chat_update are not
distinguished; block payloads are represented by the builder's context
argument since every builder is a pure function of it. -/
inductive OutMsg where
  /-- A plain text message or update. -/
  | plain (text : String)
  /-- The project-selection blocks (build_project_selection_blocks). -/
  | projectSelect (text : String) (ctx : ProjectSelectionContext)
  /-- The issue-type-selection blocks (build_issue_type_selection_blocks). -/
  | issueTypeSelect (text : String) (ctx : IssueTypeSelectionContext)
  /-- The similarity blocks (build_similarity_check_blocks). -/
  | similarityBlocks (text : String) (ctx : SimilarityCheckContext)
  /-- The pre-creation confirmation blocks
  (build_pre_creation_confirmation_blocks). -/
  | confirmTicket (text : String) (ctx : FinalTicketCreationContext)
  /-- An open-text prompt for one dynamic field; degraded is true when the
  field had allowed values but none produced a renderable option. -/
  | fieldPromptText (fieldName : String) (degraded : Bool)
  /-- A single-choice prompt for one dynamic field with its rendered
  options. -/
  | fieldPromptSelect (fieldId fieldName : String) (options : List SelectOption)
  deriving Repr, DecidableEq

/-- The observable outcome of handling one inbound event: the per-identity
store entry afterwards, the outbound Slack calls in order, and the argument
of each create_jira_ticket call made. -/
structure StepResult where
  store : Option BotStateData
  messages : List OutMsg
  createCalls : List JiraTicketData
  deriving Repr, DecidableEq

/-- Results and parameters the handlers receive from outside: what each
external-collaborator call site would return, plus time.time().  The body of
get_required_fields_for_issue_type is not present in the repository sources
(slack_handler.py imports it from jira_client, which does not define it);
per the interface contract its result is the list of required field
descriptors for a project key and issue type name, which is exactly how the
handler consumes it here. -/
structure Env where
  /-- Result of extract_ticket_details_from_text for a given text. -/
  extract : String → Option ParsedTicketDetails
  /-- The jira_projects_cache argument passed by main.py. -/
  projectsCache : List JiraProject
  /-- Result of get_available_jira_projects() when the cache is falsy. -/
  fallbackProjects : List JiraProject
  /-- Result of get_project_creatable_issue_types for a project key. -/
  issueTypes : String → List JiraIssueType
  /-- Result of get_required_fields_for_issue_type for (project key, issue
  type name). -/
  requiredFields : String → String → List RequiredFieldDetail
  /-- Result of search_similar_jira_tickets for (project key, summary, issue
  type names). -/
  searchSimilar : String → String → List String → List SimilarTicketInfo
  /-- Outcome of the awaited create_jira_ticket call: ok (some info) on
  success, ok none when it returned None, error when it raised. -/
  createResult : JiraTicketData → Except PyErr (Option CreatedTicketInfo)
  /-- time.time() for new sessions. -/
  now : Nat

/-! ## Stage tags (the Python class __name__ strings stored in
current_mcp_stage) -/

/-- Stage tag written for ProjectSelectionContext. -/
def stageProjectSelection : String := "ProjectSelectionContext"

/-- Stage tag written for IssueTypeSelectionContext. -/
def stageIssueTypeSelection : String := "IssueTypeSelectionContext"

/-- Stage tag written for SequentialFieldsInputContext. -/
def stageSequential : String := "SequentialFieldsInputContext"

/-- Stage tag written for SimilarityCheckContext. -/
def stageSimilarity : String := "SimilarityCheckContext"

/-- Stage tag written for FinalTicketCreationContext. -/
def stageFinal : String := "FinalTicketCreationContext"

/-- The stored stage tag names exactly the model that the stored payload
dump validates as (the spec's stage-tag / payload-variant agreement). -/
def stageAgrees (bs : BotStateData) : Bool :=
  match bs.context_data with
  | ContextData.project _ => bs.current_mcp_stage == some stageProjectSelection
  | ContextData.issueType _ => bs.current_mcp_stage == some stageIssueTypeSelection
  | ContextData.sequential _ => bs.current_mcp_stage == some stageSequential
  | ContextData.similarity _ => bs.current_mcp_stage == some stageSimilarity
  | ContextData.final _ => bs.current_mcp_stage == some stageFinal

/-! ## slack_handler.py: _ask_for_next_required_field -/

/-- The action-id prefix for dynamic field dropdowns
(ACTION_ID_SUBMIT_DYNAMIC_FIELD_SELECT plus the separating underscore). -/
def dynamicFieldSelectActionIdStem : String := "submit_dynamic_field_select_"

/-- pre_collected_field_ids (slack_handler.py line 372): field ids already
captured by the draft and the selections, filtered out of the
required-fields list. -/
def preCollectedFieldIds : List String :=
  ["summary", "description", "project", "issuetype", "reporter"]

/-- The pre-creation description string: parsed description plus the
requested-by trailer (slack_handler.py lines 80 and 424 and 482). -/
def requestedByDescription (description user_id : String) : String :=
  description ++ "\n\n---\nRequested by <@" ++ user_id ++ ">"

/-- The SimilarityCheckContext assembled after field collection or directly
after issue-type selection (slack_handler.py lines 61-68 and 405-413). -/
def mkSimilarityContext (enriched : EnrichedTicketContext) (proj : JiraProject)
    (itype : JiraIssueType) (dynFields : List (String × Option String))
    (similar : List SimilarTicketInfo) : SimilarityCheckContext :=
  { slack_context := enriched.slack_context
    raw_request := enriched.raw_request
    parsed_ticket_details := enriched.parsed_ticket_details
    selected_project := proj
    selected_issue_type := itype
    dynamic_fields_data := some dynFields
    similar_tickets_found := similar
    status := if !similar.isEmpty then "pending_user_decision_on_similarity"
              else "pending_confirmation" }

/-- The JiraTicketData assembled for creation (slack_handler.py lines 77-84,
421-428 and 479-486). -/
def mkJiraTicketData (proj : JiraProject) (itype : JiraIssueType)
    (parsed : ParsedTicketDetails) (requesting_user : String)
    (dynFields : List (String × Option String)) : JiraTicketData :=
  { project_key := proj.key
    summary := parsed.summary
    description := requestedByDescription parsed.description requesting_user
    issue_type_name := itype.name
    reporter_email := none
    components := none
    dynamic_fields := some dynFields }

/-- _ask_for_next_required_field (slack_handler.py lines 29-137).  Both call
sites write bot_state to the store immediately before calling, so the
prompting branch (which performs no store write in the source) reports the
store as some bot_state.  The decode-failure branch posts the memory message
and pops the session; the completed branch runs the duplicate search and
stores either the similarity context or the final creation context. -/
def ask_for_next_required_field (env : Env) (bot_state : BotStateData) : StepResult :=
  match validateSequential bot_state.context_data with
  | none =>
    { store := none
      messages := [OutMsg.plain "There was an issue with my memory. Please try starting over."]
      createCalls := [] }
  | some sctx =>
    let fields := sctx.fields_to_collect_sequentially
    if h : sctx.current_field_prompt_index < fields.length then
      let field := fields.get ⟨sctx.current_field_prompt_index, h⟩
      if pyTruthyL field.allowed_values then
        let options := buildFieldOptions (field.allowed_values.getD [])
        if !options.isEmpty then
          { store := some bot_state
            messages := [OutMsg.fieldPromptSelect field.field_id field.name options]
            createCalls := [] }
        else
          { store := some bot_state
            messages := [OutMsg.fieldPromptText field.name true]
            createCalls := [] }
      else
        { store := some bot_state
          messages := [OutMsg.fieldPromptText field.name false]
          createCalls := [] }
    else
      let enriched := sctx.enriched_ticket_context
      let proj := sctx.selected_project
      let itype := sctx.selected_issue_type
      let collected := sctx.collected_dynamic_field_values
      let similar := env.searchSimilar proj.key enriched.parsed_ticket_details.summary [itype.name]
      let simCtx := mkSimilarityContext enriched proj itype collected similar
      let bs1 := { bot_state with
                   current_mcp_stage := some stageSimilarity
                   context_data := ContextData.similarity simCtx }
      if !similar.isEmpty then
        { store := some bs1
          messages := [OutMsg.similarityBlocks "Found similar tickets after collecting details." simCtx]
          createCalls := [] }
      else
        let jd := mkJiraTicketData proj itype enriched.parsed_ticket_details bot_state.user_id collected
        let fctx : FinalTicketCreationContext :=
          { slack_context := enriched.slack_context
            jira_ticket_data := jd
            status := "ready_for_creation" }
        let bs2 := { bot_state with
                     current_mcp_stage := some stageFinal
                     context_data := ContextData.final fctx }
        { store := some bs2
          messages := [OutMsg.confirmTicket "Please confirm ticket details (including additional fields)." fctx]
          createCalls := [] }

/-! ## slack_handler.py: handle_message_im -/

/-- An inbound message event (the fields read by handle_message_im). -/
structure MessageEvent where
  user : Option String
  channel : String
  text : String
  bot_id : Option String := none
  subtype : Option String := none
  team_id : Option String := none
  deriving Repr, DecidableEq

/-- The consumption attempt of handle_message_im (slack_handler.py lines
233-255) for a present session: when the session is at the sequential stage
and the field at the cursor expects open text, the message text is stored as
that field's value and the prompting helper runs (Sum.inl finishes the
step); a decode failure pops the session and falls through (Sum.inr none);
anything else falls through with the store untouched. -/
def consumeFieldAnswer (env : Env) (text : String) (bot_state : BotStateData) :
    StepResult ⊕ Option BotStateData :=
  if bot_state.current_mcp_stage == some stageSequential then
    match validateSequential bot_state.context_data with
    | none => Sum.inr none
    | some sctx =>
      if h : sctx.current_field_prompt_index <
          sctx.fields_to_collect_sequentially.length then
        let field := sctx.fields_to_collect_sequentially.get
          ⟨sctx.current_field_prompt_index, h⟩
        if !(pyTruthyL field.allowed_values) then
          let sctx2 := { sctx with
            collected_dynamic_field_values :=
              dictInsert sctx.collected_dynamic_field_values field.field_id (some text)
            current_field_prompt_index := sctx.current_field_prompt_index + 1 }
          let bs2 := { bot_state with context_data := ContextData.sequential sctx2 }
          Sum.inl (ask_for_next_required_field env bs2)
        else
          Sum.inr (some bot_state)
      else
        Sum.inr (some bot_state)
  else
    Sum.inr (some bot_state)

/-- The new-request path of handle_message_im (slack_handler.py lines
258-278): run extraction, fetch the selectable projects, and either abort
with a message (store left as the fall-through value) or store a fresh
project-selection session. -/
def newRequestPath (env : Env) (ev : MessageEvent) (user_id : String)
    (store1 : Option BotStateData) : StepResult :=
  let text := pyStrip ev.text
  match env.extract text with
  | none =>
    { store := store1
      messages := [OutMsg.plain "I had trouble understanding the details. Please try rephrasing."]
      createCalls := [] }
  | some parsed =>
    let slack_ctx : SlackContext :=
      { user_id := user_id, channel_id := ev.channel, team_id := ev.team_id }
    let enriched : EnrichedTicketContext :=
      { slack_context := slack_ctx, raw_request := text, parsed_ticket_details := parsed }
    let available :=
      if !env.projectsCache.isEmpty then env.projectsCache else env.fallbackProjects
    if available.isEmpty then
      { store := store1
        messages := [OutMsg.plain "Couldn\x27t fetch Jira projects. Please contact an admin."]
        createCalls := [] }
    else
      let pctx : ProjectSelectionContext :=
        { enriched_ticket_context := enriched
          available_projects := available
          status := "pending_project_selection" }
      let bs : BotStateData :=
        { user_id := user_id
          channel_id := ev.channel
          current_mcp_stage := some stageProjectSelection
          context_data := ContextData.project pctx
          timestamp := env.now }
      { store := some bs
        messages := [OutMsg.projectSelect "Select a Jira project." pctx]
        createCalls := [] }

/-- handle_message_im (slack_handler.py lines 220-278).  The consumption
attempt either finishes the step (text consumed for the awaited open
field), pops the session on a decode failure and falls through, or falls
through with the store untouched; the fall-through runs the new-request
path. -/
def handle_message_im (env : Env) (ev : MessageEvent) (store : Option BotStateData) :
    StepResult :=
  let text := pyStrip ev.text
  match ev.user with
  | none => { store := store, messages := [], createCalls := [] }
  | some user_id =>
    if text == "" || ev.bot_id.isSome || ev.subtype == some "bot_message" then
      { store := store, messages := [], createCalls := [] }
    else
      let afterConsume : StepResult ⊕ Option BotStateData :=
        match store with
        | none => Sum.inr none
        | some bot_state => consumeFieldAnswer env text bot_state
      match afterConsume with
      | Sum.inl r => r
      | Sum.inr store1 => newRequestPath env ev user_id store1

/-! ## slack_handler.py: handle_interactive_action -/

/-- An inbound interactive action (action id plus the extracted value: the
button value, or selected_option.value for a static_select). -/
structure ActionEvent where
  user_id : String
  channel_id : String
  action_id : String
  action_value : Option String := none
  deriving Repr, DecidableEq

/-- The select_jira_project_action branch (slack_handler.py lines 315-348):
validate the project-selection payload, look the chosen key up in the
offered list, fetch issue types and advance, aborting with a message (and a
cleared session when no issue types exist). -/
def selectProjectBranch (env : Env) (ev : ActionEvent) (bot_state : BotStateData) :
    StepResult :=
  match validateProjectSelection bot_state.context_data with
  | none =>
    { store := some bot_state
      messages := [OutMsg.plain "Error selecting project."]
      createCalls := [] }
  | some pctx =>
    match pctx.available_projects.find? (fun p => ev.action_value == some p.key) with
    | none =>
      { store := some bot_state
        messages := [OutMsg.plain "Invalid project. Try again."]
        createCalls := [] }
    | some proj =>
      let m1 := OutMsg.plain
        ("Project *" ++ proj.name ++ "* selected. Fetching issue types...")
      let its := env.issueTypes proj.key
      if its.isEmpty then
        { store := none
          messages := [m1, OutMsg.plain
            ("No creatable issue types for *" ++ pyStr ev.action_value ++ "*.")]
          createCalls := [] }
      else
        let ictx : IssueTypeSelectionContext :=
          { enriched_ticket_context := pctx.enriched_ticket_context
            selected_project := proj
            available_issue_types := its
            status := "pending_issue_type_selection" }
        let bs2 := { bot_state with
                     current_mcp_stage := some stageIssueTypeSelection
                     context_data := ContextData.issueType ictx }
        { store := some bs2
          messages := [m1, OutMsg.issueTypeSelect
            ("Select issue type for " ++ pyStr ev.action_value ++ ":") ictx]
          createCalls := [] }

/-- The select_jira_issue_type_action branch (slack_handler.py lines
350-437): validate the issue-type-selection payload, look the chosen id up,
fetch and filter the required fields, then either start sequential input or
run the duplicate search and advance straight to the similarity or
confirmation stage. -/
def selectIssueTypeBranch (env : Env) (ev : ActionEvent) (bot_state : BotStateData) :
    StepResult :=
  match validateIssueTypeSelection bot_state.context_data with
  | none =>
    { store := some bot_state
      messages := [OutMsg.plain "Error selecting issue type."]
      createCalls := [] }
  | some ictx =>
    match ictx.available_issue_types.find? (fun it => ev.action_value == some it.id) with
    | none =>
      { store := some bot_state
        messages := [OutMsg.plain "Invalid issue type. Try again."]
        createCalls := [] }
    | some itype =>
      let m1 := OutMsg.plain
        ("Project *" ++ ictx.selected_project.key ++ "*, Type *" ++ itype.name ++
         "* selected. Fetching required fields...")
      let rfs := env.requiredFields ictx.selected_project.key itype.name
      let toAsk := rfs.filter
        (fun rf => !(preCollectedFieldIds.contains rf.field_id))
      if !toAsk.isEmpty then
        let sctx : SequentialFieldsInputContext :=
          { enriched_ticket_context := ictx.enriched_ticket_context
            selected_project := ictx.selected_project
            selected_issue_type := itype
            fields_to_collect_sequentially := toAsk
            current_field_prompt_index := 0
            collected_dynamic_field_values := []
            status := "pending_sequential_field_input" }
        let bs2 := { bot_state with
                     current_mcp_stage := some stageSequential
                     context_data := ContextData.sequential sctx }
        let r := ask_for_next_required_field env bs2
        { store := r.store, messages := m1 :: r.messages, createCalls := r.createCalls }
      else
        let enriched := ictx.enriched_ticket_context
        let similar := env.searchSimilar ictx.selected_project.key
          enriched.parsed_ticket_details.summary [itype.name]
        let simCtx := mkSimilarityContext enriched ictx.selected_project itype [] similar
        let bs2 := { bot_state with
                     current_mcp_stage := some stageSimilarity
                     context_data := ContextData.similarity simCtx }
        if !similar.isEmpty then
          { store := some bs2
            messages := [m1, OutMsg.similarityBlocks "Found similar tickets." simCtx]
            createCalls := [] }
        else
          let jd := mkJiraTicketData ictx.selected_project itype
            enriched.parsed_ticket_details ev.user_id []
          let fctx : FinalTicketCreationContext :=
            { slack_context := enriched.slack_context
              jira_ticket_data := jd
              status := "ready_for_creation" }
          let bs3 := { bot_state with
                       current_mcp_stage := some stageFinal
                       context_data := ContextData.final fctx }
          { store := some bs3
            messages := [m1, OutMsg.confirmTicket "Confirm ticket details." fctx]
            createCalls := [] }

/-- The dynamic-field dropdown submission branch (slack_handler.py lines
440-472): validate the sequential payload, check the submitted field id
against the field at the cursor, store the selected value, advance the
cursor and re-enter the prompting helper; a mismatched or out-of-range
submission is logged and ignored without state change. -/
def dynamicFieldSelectBranch (env : Env) (ev : ActionEvent) (bot_state : BotStateData) :
    StepResult :=
  let field_id_from_action := pyReplace ev.action_id dynamicFieldSelectActionIdStem ""
  match validateSequential bot_state.context_data with
  | none =>
    { store := some bot_state
      messages := [OutMsg.plain "Error processing your selection for the dynamic field."]
      createCalls := [] }
  | some sctx =>
    if h : sctx.current_field_prompt_index <
        sctx.fields_to_collect_sequentially.length then
      let field := sctx.fields_to_collect_sequentially.get
        ⟨sctx.current_field_prompt_index, h⟩
      if field.field_id == field_id_from_action then
        let sctx2 := { sctx with
          collected_dynamic_field_values :=
            dictInsert sctx.collected_dynamic_field_values field_id_from_action
              ev.action_value
          current_field_prompt_index := sctx.current_field_prompt_index + 1 }
        let bs2 := { bot_state with context_data := ContextData.sequential sctx2 }
        let m := OutMsg.plain
          ("You selected: " ++ pyStr ev.action_value ++ " for " ++ field.name ++ ".")
        let r := ask_for_next_required_field env bs2
        { store := r.store, messages := m :: r.messages, createCalls := r.createCalls }
      else
        { store := some bot_state, messages := [], createCalls := [] }
    else
      { store := some bot_state, messages := [], createCalls := [] }

/-- The create_new_ticket_anyway branch (slack_handler.py lines 475-502):
assemble the final creation payload from the similarity context, including
the collected dynamic fields, and present the confirmation. -/
def createAnywayBranch (_env : Env) (ev : ActionEvent) (bot_state : BotStateData) :
    StepResult :=
  match validateSimilarity bot_state.context_data with
  | none =>
    { store := some bot_state
      messages := [OutMsg.plain "An error occurred. Please try again."]
      createCalls := [] }
  | some simctx =>
    let jd := mkJiraTicketData simctx.selected_project simctx.selected_issue_type
      simctx.parsed_ticket_details ev.user_id
      (match simctx.dynamic_fields_data with | some d => d | none => [])
    let fctx : FinalTicketCreationContext :=
      { slack_context := simctx.slack_context
        jira_ticket_data := jd
        status := "ready_for_creation" }
    let bs2 := { bot_state with
                 current_mcp_stage := some stageFinal
                 context_data := ContextData.final fctx }
    { store := some bs2
      messages := [OutMsg.confirmTicket "Please confirm ticket details:" fctx]
      createCalls := [] }

/-- The confirm_create_ticket_action branch (slack_handler.py lines
505-544): validate the final payload, call the creation collaborator, and
either announce success and clear the session, or re-present the same
confirmation with the session kept; a decode failure falls into the doubly
nested except path, which tells the user to start over and clears the
session. -/
def confirmCreateBranch (env : Env) (_ev : ActionEvent) (bot_state : BotStateData) :
    StepResult :=
  match validateFinal bot_state.context_data with
  | none =>
    { store := none
      messages := [OutMsg.plain "An unexpected error. Please start over."]
      createCalls := [] }
  | some fctx =>
    let m1 := OutMsg.plain "Creating your Jira ticket, please wait..."
    match env.createResult fctx.jira_ticket_data with
    | Except.ok (some info) =>
      { store := none
        messages := [m1, OutMsg.plain
          ("✅ Success! Jira ticket <" ++ info.url ++ "|" ++ info.key ++
           "> created in project *" ++ fctx.jira_ticket_data.project_key ++ "*.")]
        createCalls := [fctx.jira_ticket_data] }
    | Except.ok none =>
      { store := some bot_state
        messages := [m1, OutMsg.confirmTicket
          "❌ Sorry, I couldn\x27t create the Jira ticket. Please check the logs or try again."
          fctx]
        createCalls := [fctx.jira_ticket_data] }
    | Except.error _ =>
      { store := some bot_state
        messages := [m1, OutMsg.confirmTicket
          "An unexpected error occurred. Please try again or cancel." fctx]
        createCalls := [fctx.jira_ticket_data] }

/-- The mark_duplicate and cancel branch (slack_handler.py lines 546-558):
acknowledge and clear the session; no creation call is made. -/
def cancelBranch (ev : ActionEvent) : StepResult :=
  let cancel_text :=
    if ev.action_id == "mark_duplicate" then
      "Okay, noted as duplicate of " ++ pyStr ev.action_value ++ ". No new ticket created."
    else
      "Okay, I\x27ve cancelled the ticket creation process."
  { store := none, messages := [OutMsg.plain cancel_text], createCalls := [] }

/-- handle_interactive_action (slack_handler.py lines 281-560): dispatch on
the action id in the source's elif order; a missing session is answered with
the context-lost message; an unrecognized action id is logged and leaves the
state untouched. -/
def handle_interactive_action (env : Env) (ev : ActionEvent)
    (store : Option BotStateData) : StepResult :=
  match store with
  | none =>
    { store := none
      messages := [OutMsg.plain "Context lost. Please start over."]
      createCalls := [] }
  | some bot_state =>
    if ev.action_id == "select_jira_project_action" then
      selectProjectBranch env ev bot_state
    else if ev.action_id == "select_jira_issue_type_action" then
      selectIssueTypeBranch env ev bot_state
    else if pyStartswith ev.action_id dynamicFieldSelectActionIdStem then
      dynamicFieldSelectBranch env ev bot_state
    else if ev.action_id == "create_new_ticket_anyway" then
      createAnywayBranch env ev bot_state
    else if ev.action_id == "confirm_create_ticket_action" then
      confirmCreateBranch env ev bot_state
    else if ev.action_id == "mark_duplicate" ||
        ev.action_id == "cancel_creation_similarity" ||
        ev.action_id == "cancel_creation_confirmation" ||
        ev.action_id == "cancel_creation_project_select" ||
        ev.action_id == "cancel_creation_issue_type_select" then
      cancelBranch ev
    else
      { store := some bot_state, messages := [], createCalls := [] }

/-! ## Event runner -/

/-- An inbound event of either kind. -/
inductive InEvent where
  | msg (ev : MessageEvent)
  | act (ev : ActionEvent)
  deriving Repr, DecidableEq

/-- Dispatch one inbound event to its handler. -/
def stepEvent (env : Env) (e : InEvent) (store : Option BotStateData) : StepResult :=
  match e with
  | InEvent.msg ev => handle_message_im env ev store
  | InEvent.act ev => handle_interactive_action env ev store

/-- Thread the per-identity store entry through a sequence of events. -/
def runEvents (env : Env) (es : List InEvent) (store : Option BotStateData) :
    Option BotStateData :=
  es.foldl (fun s e => (stepEvent env e s).store) store

/-! ## Concrete sample data for witnesses and counterexamples -/

/-- Sample Slack context. -/
def sampleSlackCtx : SlackContext := { user_id := "U1", channel_id := "C1" }

/-- Sample extracted draft. -/
def sampleParsed : ParsedTicketDetails :=
  { summary := "Login button broken on mobile"
    description := "The login button is broken on mobile"
    issue_type := "Bug" }

/-- Sample enriched context. -/
def sampleEnriched : EnrichedTicketContext :=
  { slack_context := sampleSlackCtx
    raw_request := "the login button is broken on mobile"
    parsed_ticket_details := sampleParsed }

/-- Sample Jira project. -/
def sampleProject : JiraProject := { id := "10000", key := "APP", name := "App" }

/-- Sample Jira issue type. -/
def sampleIssueType : JiraIssueType := { id := "10", name := "Bug" }

/-- Sample duplicate candidate. -/
def sampleDup : SimilarTicketInfo :=
  { key := "APP-42", summary := "Login broken", url := "https://jira.example/browse/APP-42" }

/-- Sample sequential-input field descriptor with an open text answer. -/
def sevTextField : RequiredFieldDetail := { field_id := "customfield_1", name := "Severity" }

/-- Sample issue-type-selection context. -/
def sampleIctx : IssueTypeSelectionContext :=
  { enriched_ticket_context := sampleEnriched
    selected_project := sampleProject
    available_issue_types := [sampleIssueType] }

/-- Sample final creation context with one collected dynamic field. -/
def sampleFinalCtx : FinalTicketCreationContext :=
  { slack_context := sampleSlackCtx
    jira_ticket_data :=
      mkJiraTicketData sampleProject sampleIssueType sampleParsed "U1"
        [("customfield_1", some "Sev-High")] }

/-- A stored session at the issue-type-selection stage. -/
def issueTypeStageBs : BotStateData :=
  { user_id := "U1", channel_id := "C1"
    current_mcp_stage := some stageIssueTypeSelection
    context_data := ContextData.issueType sampleIctx, timestamp := 0 }

/-- A stored session at the duplicate-check stage with one candidate. -/
def similarityStageBs : BotStateData :=
  { user_id := "U1", channel_id := "C1"
    current_mcp_stage := some stageSimilarity
    context_data := ContextData.similarity
      (mkSimilarityContext sampleEnriched sampleProject sampleIssueType [] [sampleDup])
    timestamp := 0 }

/-- A stored session at the ready-to-create stage. -/
def finalStageBs : BotStateData :=
  { user_id := "U1", channel_id := "C1"
    current_mcp_stage := some stageFinal
    context_data := ContextData.final sampleFinalCtx, timestamp := 0 }

/-- A neutral environment for witnesses: extraction succeeds with the sample
draft, the project cache holds the sample project, one issue type, no extra
required fields, no duplicates, creation returns None. -/
def env0 : Env :=
  { extract := fun _ => some sampleParsed
    projectsCache := [sampleProject]
    fallbackProjects := []
    issueTypes := fun _ => [sampleIssueType]
    requiredFields := fun _ _ => []
    searchSimilar := fun _ _ _ => []
    createResult := fun _ => Except.ok none
    now := 0 }

/-- A stored session at the project-selection stage. -/
def projectStageBs : BotStateData :=
  { user_id := "U1", channel_id := "C1"
    current_mcp_stage := some stageProjectSelection
    context_data := ContextData.project
      { enriched_ticket_context := sampleEnriched, available_projects := [sampleProject] }
    timestamp := 0 }

/-- The collection-chosen action event for the sample project. -/
def chooseAppEvent : ActionEvent :=
  { user_id := "U1", channel_id := "C1"
    action_id := "select_jira_project_action", action_value := some "APP" }

/-- Sample created-ticket result. -/
def sampleCreated : CreatedTicketInfo :=
  { key := "APP-7", id := "20007", url := "https://jira.example/browse/APP-7" }

/-- env0 with a tracker that succeeds at creation. -/
def envCreateOk : Env := { env0 with createResult := fun _ => Except.ok (some sampleCreated) }

/-- env0 with a required-fields answer consisting solely of pre-collected
ids. -/
def envPreCollectedOnly : Env :=
  { env0 with requiredFields := fun _ _ =>
      [{ field_id := "summary", name := "Summary" },
       { field_id := "description", name := "Description" }] }

/-- Sample choice field: Severity with High and Low options (scenario C). -/
def sevChoiceField : RequiredFieldDetail :=
  { field_id := "customfield_1", name := "Severity"
    allowed_values := some [{ id := some "1", name := some "High" },
                            { id := some "2", name := some "Low" }] }

/-- A free-text follow-up field. -/
def notesField : RequiredFieldDetail := { field_id := "customfield_2", name := "Notes" }

/-- A sequential-input session awaiting the Severity choice. -/
def seqChoiceCtx : SequentialFieldsInputContext :=
  { enriched_ticket_context := sampleEnriched
    selected_project := sampleProject
    selected_issue_type := sampleIssueType
    fields_to_collect_sequentially := [sevChoiceField]
    current_field_prompt_index := 0
    collected_dynamic_field_values := [] }

/-- The stored session for seqChoiceCtx. -/
def seqChoiceBs : BotStateData :=
  { user_id := "U1", channel_id := "C1", current_mcp_stage := some stageSequential
    context_data := ContextData.sequential seqChoiceCtx, timestamp := 0 }

/-- An 80-character field-value id, longer than the 75-character dropdown
limit. -/
def longId : String := String.mk (List.replicate 80 'x')

/-- Its 75-character truncation as rendered into the dropdown option. -/
def truncId : String := String.mk (List.replicate 75 'x')

/-- An allowed value whose id exceeds the dropdown value limit, with a
distinct display label. -/
def av80 : AllowedValue := { id := some longId, name := some "High" }

/-- A Severity field whose single option carries the oversized id. -/
def sev80Field : RequiredFieldDetail :=
  { field_id := "customfield_1", name := "Severity", allowed_values := some [av80] }

/-- A sequential-input session awaiting sev80Field, with one more field to
come. -/
def seq80Ctx : SequentialFieldsInputContext :=
  { enriched_ticket_context := sampleEnriched
    selected_project := sampleProject
    selected_issue_type := sampleIssueType
    fields_to_collect_sequentially := [sev80Field, notesField]
    current_field_prompt_index := 0
    collected_dynamic_field_values := [] }

/-- The stored session for seq80Ctx. -/
def seq80Bs : BotStateData :=
  { user_id := "U1", channel_id := "C1", current_mcp_stage := some stageSequential
    context_data := ContextData.sequential seq80Ctx, timestamp := 0 }

/-- Environment for the claim-1 run: one non-pre-collected required field,
no duplicates, and a tracker whose raw create call would fail with a
JIRAError (it is never reached). -/
def envC1 : Env :=
  { env0 with
    requiredFields := fun _ _ => [sevTextField]
    createResult := fun td => create_jira_ticket true (Except.error PyErr.jiraError) td }

/-- Claim-1 run, event 1: the opening free-text request. -/
def c1e1 : InEvent :=
  InEvent.msg { user := some "U1", channel := "C1",
                text := "the login button is broken on mobile" }

/-- Claim-1 run, event 2: the collection choice. -/
def c1e2 : InEvent :=
  InEvent.act { user_id := "U1", channel_id := "C1",
                action_id := "select_jira_project_action", action_value := some "APP" }

/-- Claim-1 run, event 3: the subtype choice. -/
def c1e3 : InEvent :=
  InEvent.act { user_id := "U1", channel_id := "C1",
                action_id := "select_jira_issue_type_action", action_value := some "10" }

/-- Claim-1 run, event 4: the free-text answer to the Severity field. -/
def c1e4 : InEvent :=
  InEvent.msg { user := some "U1", channel := "C1", text := "Sev-High" }

/-- The sequential context the claim-1 run reaches after the subtype
choice: one field to collect, cursor 0, nothing collected. -/
def c1SeqCtx : SequentialFieldsInputContext :=
  { enriched_ticket_context := sampleEnriched
    selected_project := sampleProject
    selected_issue_type := sampleIssueType
    fields_to_collect_sequentially := [sevTextField]
    current_field_prompt_index := 0
    collected_dynamic_field_values := [] }

/-- The stored session holding c1SeqCtx. -/
def c1SeqBs : BotStateData :=
  { user_id := "U1", channel_id := "C1", current_mcp_stage := some stageSequential
    context_data := ContextData.sequential c1SeqCtx, timestamp := 0 }

/-- The final creation context the claim-1 run reaches after the field
answer: the collected Severity value sits in dynamic_fields. -/
def c1FinalCtx : FinalTicketCreationContext :=
  { slack_context := sampleSlackCtx
    jira_ticket_data :=
      mkJiraTicketData sampleProject sampleIssueType sampleParsed "U1"
        [("customfield_1", some "Sev-High")] }

/-- The stored session holding c1FinalCtx. -/
def c1FinalBs : BotStateData :=
  { user_id := "U1", channel_id := "C1", current_mcp_stage := some stageFinal
    context_data := ContextData.final c1FinalCtx, timestamp := 0 }

/-- The sequential context after one field answer is stored and the cursor
advanced (slack_handler.py lines 244-245 and 450-451). -/
def consumedSctx (sctx : SequentialFieldsInputContext) (field_id : String)
    (value : Option String) : SequentialFieldsInputContext :=
  { sctx with
    collected_dynamic_field_values :=
      dictInsert sctx.collected_dynamic_field_values field_id value
    current_field_prompt_index := sctx.current_field_prompt_index + 1 }

/-- The stored session carrying consumedSctx. -/
def consumedBs (bs : BotStateData) (sctx : SequentialFieldsInputContext)
    (field_id : String) (value : Option String) : BotStateData :=
  { bs with context_data := ContextData.sequential (consumedSctx sctx field_id value) }

/-- The project-selection context built by the new-request path of
handle_message_im (slack_handler.py lines 260-270) for a message event, its
sender, the extraction result and the offered projects. -/
def newRequestPctx (ev : MessageEvent) (u : String) (parsed : ParsedTicketDetails)
    (projects : List JiraProject) : ProjectSelectionContext :=
  { enriched_ticket_context :=
      { slack_context := { user_id := u, channel_id := ev.channel, team_id := ev.team_id }
        raw_request := pyStrip ev.text
        parsed_ticket_details := parsed }
    available_projects := projects
    status := "pending_project_selection" }

/-- The fresh session stored by the new-request path (slack_handler.py lines
272-275). -/
def newRequestBs (env : Env) (ev : MessageEvent) (u : String)
    (parsed : ParsedTicketDetails) (projects : List JiraProject) : BotStateData :=
  { user_id := u, channel_id := ev.channel
    current_mcp_stage := some stageProjectSelection
    context_data := ContextData.project (newRequestPctx ev u parsed projects)
    timestamp := env.now }

/-! ## Theorems -/

/-- Looking up the key just written by a Python dict assignment yields the
written value. -/
theorem dictGet_dictInsert (d : List (String × Option String)) (k : String)
    (v : Option String) : dictGet (dictInsert d k v) k = some v := by
  unfold dictInsert
  by_cases h : d.any (fun p => p.1 == k) = true
  · rw [if_pos h]
    induction d with
    | nil => simp at h
    | cons p ps ih =>
      rw [List.any_cons] at h
      by_cases hp : (p.1 == k) = true
      · rw [List.map_cons, if_pos hp]
        unfold dictGet
        rw [List.find?_cons_of_pos _ (by simp)]
        rfl
      · rw [List.map_cons, if_neg hp]
        unfold dictGet
        rw [List.find?_cons_of_neg _ (by simpa using hp)]
        have hps : ps.any (fun p => p.1 == k) = true := by
          rcases Bool.or_eq_true_iff.mp h with h1 | h2
          · exact absurd h1 hp
          · exact h2
        exact ih hps
  · rw [if_neg h]
    induction d with
    | nil =>
      unfold dictGet
      rw [List.nil_append, List.find?_cons_of_pos _ (by simp)]
      rfl
    | cons p ps ih =>
      rw [List.any_cons] at h
      have hp : ¬((p.1 == k) = true) := fun hq => h (Bool.or_eq_true_iff.mpr (Or.inl hq))
      unfold dictGet
      rw [List.cons_append, List.find?_cons_of_neg _ (by simpa using hp)]
      exact ih fun hps => h (Bool.or_eq_true_iff.mpr (Or.inr hps))

/-- A string extended by any suffix still starts with itself. -/
theorem pyStartswith_append (s t : String) : pyStartswith (s ++ t) s = true := by
  unfold pyStartswith
  rw [show (s ++ t).data = s.data ++ t.data from rfl]
  exact List.isPrefixOf_iff_prefix.mpr (List.prefix_append _ _)

/-- A payload that validates as the sequential model is the sequential
variant. -/
theorem validateSequential_eq_some {cd : ContextData} {c : SequentialFieldsInputContext}
    (h : validateSequential cd = some c) : cd = ContextData.sequential c := by
  cases cd <;> simp_all [validateSequential]

/-- stageAgrees is preserved by whatever _ask_for_next_required_field leaves
in the store, given it held for the state passed in. -/
theorem stageAgrees_ask_store (env : Env) (bs : BotStateData)
    (h : stageAgrees bs = true) :
    ∀ bs', (ask_for_next_required_field env bs).store = some bs' →
      stageAgrees bs' = true := by
  intro bs' hst
  unfold ask_for_next_required_field at hst
  dsimp only at hst
  split at hst
  · cases hst
  · split at hst
    · split at hst
      · split at hst
        · cases hst; exact h
        · cases hst; exact h
      · cases hst; exact h
    · split at hst
      · cases hst; rfl
      · cases hst; rfl

/-- stageAgrees is preserved by the select_jira_project_action branch. -/
theorem stageAgrees_selectProjectBranch (env : Env) (ev : ActionEvent)
    (bs : BotStateData) (h : stageAgrees bs = true) :
    ∀ bs', (selectProjectBranch env ev bs).store = some bs' →
      stageAgrees bs' = true := by
  intro bs' hst
  unfold selectProjectBranch at hst
  dsimp only at hst
  split at hst
  · cases hst; exact h
  · split at hst
    · cases hst; exact h
    · split at hst
      · cases hst
      · cases hst; rfl

/-- stageAgrees is preserved by the select_jira_issue_type_action branch. -/
theorem stageAgrees_selectIssueTypeBranch (env : Env) (ev : ActionEvent)
    (bs : BotStateData) (h : stageAgrees bs = true) :
    ∀ bs', (selectIssueTypeBranch env ev bs).store = some bs' →
      stageAgrees bs' = true := by
  intro bs' hst
  unfold selectIssueTypeBranch at hst
  dsimp only at hst
  split at hst
  · cases hst; exact h
  · split at hst
    · cases hst; exact h
    · split at hst
      · refine stageAgrees_ask_store env _ ?_ bs' hst
        rfl
      · split at hst
        · cases hst; rfl
        · cases hst; rfl

/-- stageAgrees is preserved by the dynamic-field submission branch. -/
theorem stageAgrees_dynamicFieldSelectBranch (env : Env) (ev : ActionEvent)
    (bs : BotStateData) (h : stageAgrees bs = true) :
    ∀ bs', (dynamicFieldSelectBranch env ev bs).store = some bs' →
      stageAgrees bs' = true := by
  intro bs' hst
  unfold dynamicFieldSelectBranch at hst
  dsimp only at hst
  split at hst
  · cases hst; exact h
  next sctx hv =>
    have hcd : bs.context_data = ContextData.sequential sctx := validateSequential_eq_some hv
    have htag : (bs.current_mcp_stage == some stageSequential) = true := by
      unfold stageAgrees at h
      rw [hcd] at h
      exact h
    split at hst
    · split at hst
      · refine stageAgrees_ask_store env _ ?_ bs' hst
        unfold stageAgrees
        exact htag
      · cases hst; exact h
    · cases hst; exact h

/-- stageAgrees is preserved by the create_new_ticket_anyway branch. -/
theorem stageAgrees_createAnywayBranch (env : Env) (ev : ActionEvent)
    (bs : BotStateData) (h : stageAgrees bs = true) :
    ∀ bs', (createAnywayBranch env ev bs).store = some bs' →
      stageAgrees bs' = true := by
  intro bs' hst
  unfold createAnywayBranch at hst
  dsimp only at hst
  split at hst
  · cases hst; exact h
  · cases hst; rfl

/-- stageAgrees is preserved by the confirm branch. -/
theorem stageAgrees_confirmCreateBranch (env : Env) (ev : ActionEvent)
    (bs : BotStateData) (h : stageAgrees bs = true) :
    ∀ bs', (confirmCreateBranch env ev bs).store = some bs' →
      stageAgrees bs' = true := by
  intro bs' hst
  unfold confirmCreateBranch at hst
  dsimp only at hst
  split at hst
  · cases hst
  · split at hst
    · cases hst
    · cases hst; exact h
    · cases hst; exact h

/-- stageAgrees is preserved by handle_interactive_action. -/
theorem stageAgrees_interactive (env : Env) (ev : ActionEvent)
    (store : Option BotStateData)
    (h : ∀ bs, store = some bs → stageAgrees bs = true) :
    ∀ bs', (handle_interactive_action env ev store).store = some bs' →
      stageAgrees bs' = true := by
  intro bs' hst
  unfold handle_interactive_action at hst
  cases store with
  | none =>
    dsimp only at hst
    cases hst
  | some bs0 =>
    have h0 : stageAgrees bs0 = true := h bs0 rfl
    dsimp only at hst
    split at hst
    · exact stageAgrees_selectProjectBranch env ev bs0 h0 bs' hst
    · split at hst
      · exact stageAgrees_selectIssueTypeBranch env ev bs0 h0 bs' hst
      · split at hst
        · exact stageAgrees_dynamicFieldSelectBranch env ev bs0 h0 bs' hst
        · split at hst
          · exact stageAgrees_createAnywayBranch env ev bs0 h0 bs' hst
          · split at hst
            · exact stageAgrees_confirmCreateBranch env ev bs0 h0 bs' hst
            · split at hst
              · unfold cancelBranch at hst
                dsimp only at hst
                cases hst
              · cases hst; exact h0

/-- stageAgrees is preserved by the step result that the consumption
attempt finishes with, given it held for the state passed in. -/
theorem stageAgrees_consume_inl (env : Env) (text : String) (bs0 : BotStateData)
    (h0 : stageAgrees bs0 = true) (r : StepResult)
    (hc : consumeFieldAnswer env text bs0 = Sum.inl r) :
    ∀ bs', r.store = some bs' → stageAgrees bs' = true := by
  intro bs' hst
  unfold consumeFieldAnswer at hc
  dsimp only at hc
  split at hc
  next htag =>
    split at hc
    · cases hc
    · split at hc
      · split at hc
        · cases hc
          refine stageAgrees_ask_store env _ ?_ bs' hst
          unfold stageAgrees
          exact htag
        · cases hc
      · cases hc
  · cases hc

/-- The fall-through store of the consumption attempt still satisfies
stageAgrees. -/
theorem stageAgrees_consume_inr (env : Env) (text : String) (bs0 : BotStateData)
    (h0 : stageAgrees bs0 = true) (store1 : Option BotStateData)
    (hc : consumeFieldAnswer env text bs0 = Sum.inr store1) :
    ∀ bs, store1 = some bs → stageAgrees bs = true := by
  intro bs hb
  unfold consumeFieldAnswer at hc
  dsimp only at hc
  split at hc
  · split at hc
    · cases hc
      cases hb
    · split at hc
      · split at hc
        · cases hc
        · cases hc
          cases hb
          exact h0
      · cases hc
        cases hb
        exact h0
  · cases hc
    cases hb
    exact h0

/-- stageAgrees is preserved by the new-request path. -/
theorem stageAgrees_newRequestPath (env : Env) (ev : MessageEvent) (u : String)
    (store1 : Option BotStateData)
    (h : ∀ bs, store1 = some bs → stageAgrees bs = true) :
    ∀ bs', (newRequestPath env ev u store1).store = some bs' →
      stageAgrees bs' = true := by
  intro bs' hst
  unfold newRequestPath at hst
  dsimp only at hst
  split at hst
  · cases hst; exact h bs' rfl
  · split at hst
    · split at hst
      · cases hst; exact h bs' rfl
      · cases hst; rfl
    · split at hst
      · cases hst; exact h bs' rfl
      · cases hst; rfl

/-- stageAgrees is preserved by handle_message_im. -/
theorem stageAgrees_message (env : Env) (ev : MessageEvent)
    (store : Option BotStateData)
    (h : ∀ bs, store = some bs → stageAgrees bs = true) :
    ∀ bs', (handle_message_im env ev store).store = some bs' →
      stageAgrees bs' = true := by
  intro bs' hst
  unfold handle_message_im at hst
  dsimp only at hst
  split at hst
  · cases hst; exact h bs' rfl
  · split at hst
    · cases hst; exact h bs' rfl
    · cases store with
      | none =>
        dsimp only at hst
        exact stageAgrees_newRequestPath env ev _ none (fun b hb => by cases hb) bs' hst
      | some bs0 =>
        dsimp only at hst
        cases hc : consumeFieldAnswer env (pyStrip ev.text) bs0 with
        | inl r =>
          rw [hc] at hst
          dsimp only at hst
          exact stageAgrees_consume_inl env (pyStrip ev.text) bs0 (h bs0 rfl) r hc bs' hst
        | inr s1 =>
          rw [hc] at hst
          dsimp only at hst
          exact stageAgrees_newRequestPath env ev _ s1
            (stageAgrees_consume_inr env (pyStrip ev.text) bs0 (h bs0 rfl) s1 hc) bs' hst


/-- Dispatch of handle_interactive_action to the dynamic-field branch, for
any action id that misses the two selection ids and carries the dropdown
prefix. -/
theorem handle_interactive_dispatch_dynamic (env : Env) (ev : ActionEvent)
    (bs : BotStateData)
    (h1 : (ev.action_id == "select_jira_project_action") = false)
    (h2 : (ev.action_id == "select_jira_issue_type_action") = false)
    (h3 : pyStartswith ev.action_id dynamicFieldSelectActionIdStem = true) :
    handle_interactive_action env ev (some bs) = dynamicFieldSelectBranch env ev bs := by
  unfold handle_interactive_action
  rw [h1, h2, h3]
  rfl

/-- C2: the claim says every external-collaborator operation returns a
populated or empty result and never raises past its own boundary.  The code
contradicts this and its own catch-all design: create_jira_ticket assembles
its fields dict BEFORE its try block and reads ticket_data.brand there, an
attribute JiraTicketData does not declare, so whenever the Jira client is
available the call raises AttributeError to its caller for every input,
whatever the tracker would have answered. -/
theorem c2_create_jira_ticket_always_raises
    (trackerResult : Except PyErr CreatedTicketInfo) (td : JiraTicketData) :
    create_jira_ticket true trackerResult td =
      Except.error (PyErr.attributeError "brand") := rfl

/-- C5: replaying a collection-chosen event after the session has advanced
past the Collection Selection Pending stage (so the stored payload no longer
decodes as a ProjectSelectionContext) posts the selection-error message and
leaves the stored stage tag and payload exactly as they were. -/
theorem c5_collection_replay_is_noop (env : Env) (bs : BotStateData)
    (u c : String) (v : Option String)
    (h : validateProjectSelection bs.context_data = none) :
    handle_interactive_action env
      { user_id := u, channel_id := c, action_id := "select_jira_project_action",
        action_value := v } (some bs) =
      { store := some bs, messages := [OutMsg.plain "Error selecting project."],
        createCalls := [] } := by
  unfold handle_interactive_action selectProjectBranch
  simp only [h]
  rfl

/-- Witness for c5_collection_replay_is_noop: a session already at the
issue-type-selection stage, replayed with the originally chosen key. -/
theorem c5_collection_replay_is_noop_witness :
    validateProjectSelection issueTypeStageBs.context_data = none ∧
    handle_interactive_action env0
      { user_id := "U1", channel_id := "C1", action_id := "select_jira_project_action",
        action_value := some "APP" } (some issueTypeStageBs) =
      { store := some issueTypeStageBs,
        messages := [OutMsg.plain "Error selecting project."], createCalls := [] } :=
  ⟨rfl, c5_collection_replay_is_noop env0 issueTypeStageBs "U1" "C1" (some "APP") rfl⟩

/-- C8: a mark-as-duplicate action while the stored payload is the
similarity-check variant removes the session, never invokes the
ticket-creation collaborator, and acknowledges the user. -/
theorem c8_mark_duplicate_clears_without_creation (env : Env) (bs : BotStateData)
    (s : SimilarityCheckContext) (u c : String) (v : Option String)
    (hdata : bs.context_data = ContextData.similarity s) :
    handle_interactive_action env
      { user_id := u, channel_id := c, action_id := "mark_duplicate",
        action_value := v } (some bs) =
      { store := none
        messages := [OutMsg.plain
          ("Okay, noted as duplicate of " ++ pyStr v ++ ". No new ticket created.")]
        createCalls := [] } := by
  unfold handle_interactive_action
  rfl

/-- Witness for c8_mark_duplicate_clears_without_creation at the
duplicate-check stage of scenario B. -/
theorem c8_mark_duplicate_clears_without_creation_witness :
    similarityStageBs.context_data = ContextData.similarity
      (mkSimilarityContext sampleEnriched sampleProject sampleIssueType [] [sampleDup]) ∧
    handle_interactive_action env0
      { user_id := "U1", channel_id := "C1", action_id := "mark_duplicate",
        action_value := some "APP-42" } (some similarityStageBs) =
      { store := none
        messages := [OutMsg.plain "Okay, noted as duplicate of APP-42. No new ticket created."]
        createCalls := [] } :=
  ⟨rfl, c8_mark_duplicate_clears_without_creation env0 similarityStageBs _ "U1" "C1"
    (some "APP-42") rfl⟩

/-- C9: an inbound free-text message with no existing session whose
extraction fails is answered with the rephrase message and creates no
session: the store entry for that identity stays absent. -/
theorem c9_extraction_failure_no_session (env : Env) (ev : MessageEvent) (u : String)
    (huser : ev.user = some u) (htext : pyStrip ev.text ≠ "")
    (hbot : ev.bot_id = none) (hsub : ev.subtype ≠ some "bot_message")
    (hext : env.extract (pyStrip ev.text) = none) :
    handle_message_im env ev none =
      { store := none
        messages := [OutMsg.plain "I had trouble understanding the details. Please try rephrasing."]
        createCalls := [] } := by
  have htext' : (pyStrip ev.text == "") = false := by
    simpa using htext
  have hsub' : (ev.subtype == some "bot_message") = false := by
    simpa using hsub
  unfold handle_message_im
  rw [huser]
  simp only [htext', hbot, hsub', Option.isSome_none, Bool.or_self, Bool.or_false,
    Bool.false_or, Bool.false_eq_true, if_false]
  unfold newRequestPath
  dsimp only
  simp only [hext]

/-- C7: at the ready-to-create stage, a confirm whose creation call fails
(None return or a raised exception) keeps the session with the identical
payload and re-presents the confirmation blocks built from that same
payload; a subsequent confirm whose creation call succeeds posts the created
acknowledgement and removes the session. -/
theorem c7_confirm_failure_then_success (env1 env2 : Env) (bs : BotStateData)
    (f : FinalTicketCreationContext) (info : CreatedTicketInfo) (u c : String)
    (v : Option String)
    (hdata : bs.context_data = ContextData.final f)
    (hfail : ∀ i, env1.createResult f.jira_ticket_data ≠ Except.ok (some i))
    (hsucc : env2.createResult f.jira_ticket_data = Except.ok (some info)) :
    (handle_interactive_action env1
      { user_id := u, channel_id := c, action_id := "confirm_create_ticket_action",
        action_value := v } (some bs)).store = some bs ∧
    (∃ t, (handle_interactive_action env1
      { user_id := u, channel_id := c, action_id := "confirm_create_ticket_action",
        action_value := v } (some bs)).messages =
      [OutMsg.plain "Creating your Jira ticket, please wait...",
       OutMsg.confirmTicket t f]) ∧
    handle_interactive_action env2
      { user_id := u, channel_id := c, action_id := "confirm_create_ticket_action",
        action_value := v }
      ((handle_interactive_action env1
        { user_id := u, channel_id := c, action_id := "confirm_create_ticket_action",
          action_value := v } (some bs)).store) =
      { store := none
        messages := [OutMsg.plain "Creating your Jira ticket, please wait...",
          OutMsg.plain ("✅ Success! Jira ticket <" ++ info.url ++ "|" ++ info.key ++
            "> created in project *" ++ f.jira_ticket_data.project_key ++ "*.")]
        createCalls := [f.jira_ticket_data] } := by
  have hd : ∀ e : Env, handle_interactive_action e
      { user_id := u, channel_id := c, action_id := "confirm_create_ticket_action",
        action_value := v } (some bs) =
      confirmCreateBranch e
        { user_id := u, channel_id := c, action_id := "confirm_create_ticket_action",
          action_value := v } bs := by
    intro e
    unfold handle_interactive_action
    rfl
  have hb2 : confirmCreateBranch env2
      { user_id := u, channel_id := c, action_id := "confirm_create_ticket_action",
        action_value := v } bs =
      { store := none
        messages := [OutMsg.plain "Creating your Jira ticket, please wait...",
          OutMsg.plain ("✅ Success! Jira ticket <" ++ info.url ++ "|" ++ info.key ++
            "> created in project *" ++ f.jira_ticket_data.project_key ++ "*.")]
        createCalls := [f.jira_ticket_data] } := by
    unfold confirmCreateBranch
    rw [hdata]
    show (match env2.createResult f.jira_ticket_data with
      | Except.ok (some i) =>
        ({ store := none
           messages := [OutMsg.plain "Creating your Jira ticket, please wait...",
             OutMsg.plain ("✅ Success! Jira ticket <" ++ i.url ++ "|" ++ i.key ++
               "> created in project *" ++ f.jira_ticket_data.project_key ++ "*.")]
           createCalls := [f.jira_ticket_data] } : StepResult)
      | Except.ok none =>
        { store := some bs
          messages := [OutMsg.plain "Creating your Jira ticket, please wait...",
            OutMsg.confirmTicket
              "❌ Sorry, I couldn\x27t create the Jira ticket. Please check the logs or try again."
              f]
          createCalls := [f.jira_ticket_data] }
      | Except.error _ =>
        { store := some bs
          messages := [OutMsg.plain "Creating your Jira ticket, please wait...",
            OutMsg.confirmTicket "An unexpected error occurred. Please try again or cancel." f]
          createCalls := [f.jira_ticket_data] }) = _
    rw [hsucc]
  rcases hres : env1.createResult f.jira_ticket_data with he | o
  · have hb1 : confirmCreateBranch env1
        { user_id := u, channel_id := c, action_id := "confirm_create_ticket_action",
          action_value := v } bs =
        { store := some bs
          messages := [OutMsg.plain "Creating your Jira ticket, please wait...",
            OutMsg.confirmTicket "An unexpected error occurred. Please try again or cancel." f]
          createCalls := [f.jira_ticket_data] } := by
      unfold confirmCreateBranch
      rw [hdata]
      show (match env1.createResult f.jira_ticket_data with
        | Except.ok (some i) =>
          ({ store := none
             messages := [OutMsg.plain "Creating your Jira ticket, please wait...",
               OutMsg.plain ("✅ Success! Jira ticket <" ++ i.url ++ "|" ++ i.key ++
                 "> created in project *" ++ f.jira_ticket_data.project_key ++ "*.")]
             createCalls := [f.jira_ticket_data] } : StepResult)
        | Except.ok none =>
          { store := some bs
            messages := [OutMsg.plain "Creating your Jira ticket, please wait...",
              OutMsg.confirmTicket
                "❌ Sorry, I couldn\x27t create the Jira ticket. Please check the logs or try again."
                f]
            createCalls := [f.jira_ticket_data] }
        | Except.error _ =>
          { store := some bs
            messages := [OutMsg.plain "Creating your Jira ticket, please wait...",
              OutMsg.confirmTicket "An unexpected error occurred. Please try again or cancel." f]
            createCalls := [f.jira_ticket_data] }) = _
      rw [hres]
    refine ⟨?_, ?_, ?_⟩
    · rw [hd env1, hb1]
    · exact ⟨_, by rw [hd env1, hb1]⟩
    · rw [hd env1, hb1]
      show handle_interactive_action env2 _ (some bs) = _
      rw [hd env2, hb2]
  · cases o with
    | none =>
      have hb1 : confirmCreateBranch env1
          { user_id := u, channel_id := c, action_id := "confirm_create_ticket_action",
            action_value := v } bs =
          { store := some bs
            messages := [OutMsg.plain "Creating your Jira ticket, please wait...",
              OutMsg.confirmTicket
                "❌ Sorry, I couldn\x27t create the Jira ticket. Please check the logs or try again."
                f]
            createCalls := [f.jira_ticket_data] } := by
        unfold confirmCreateBranch
        rw [hdata]
        show (match env1.createResult f.jira_ticket_data with
          | Except.ok (some i) =>
            ({ store := none
               messages := [OutMsg.plain "Creating your Jira ticket, please wait...",
                 OutMsg.plain ("✅ Success! Jira ticket <" ++ i.url ++ "|" ++ i.key ++
                   "> created in project *" ++ f.jira_ticket_data.project_key ++ "*.")]
               createCalls := [f.jira_ticket_data] } : StepResult)
          | Except.ok none =>
            { store := some bs
              messages := [OutMsg.plain "Creating your Jira ticket, please wait...",
                OutMsg.confirmTicket
                  "❌ Sorry, I couldn\x27t create the Jira ticket. Please check the logs or try again."
                  f]
              createCalls := [f.jira_ticket_data] }
          | Except.error _ =>
            { store := some bs
              messages := [OutMsg.plain "Creating your Jira ticket, please wait...",
                OutMsg.confirmTicket "An unexpected error occurred. Please try again or cancel." f]
              createCalls := [f.jira_ticket_data] }) = _
        rw [hres]
      refine ⟨?_, ?_, ?_⟩
      · rw [hd env1, hb1]
      · exact ⟨_, by rw [hd env1, hb1]⟩
      · rw [hd env1, hb1]
        show handle_interactive_action env2 _ (some bs) = _
        rw [hd env2, hb2]
    | some i => exact absurd hres (hfail i)

/-- Witness for c7_confirm_failure_then_success: the sample ready-to-create
session, confirmed once against a tracker that returns None and once against
a tracker that succeeds. -/
theorem c7_confirm_failure_then_success_witness :
    (handle_interactive_action env0
      { user_id := "U1", channel_id := "C1", action_id := "confirm_create_ticket_action",
        action_value := some "confirm_create" } (some finalStageBs)).store =
        some finalStageBs ∧
    (∃ t, (handle_interactive_action env0
      { user_id := "U1", channel_id := "C1", action_id := "confirm_create_ticket_action",
        action_value := some "confirm_create" } (some finalStageBs)).messages =
      [OutMsg.plain "Creating your Jira ticket, please wait...",
       OutMsg.confirmTicket t sampleFinalCtx]) ∧
    handle_interactive_action envCreateOk
      { user_id := "U1", channel_id := "C1", action_id := "confirm_create_ticket_action",
        action_value := some "confirm_create" }
      ((handle_interactive_action env0
        { user_id := "U1", channel_id := "C1", action_id := "confirm_create_ticket_action",
          action_value := some "confirm_create" } (some finalStageBs)).store) =
      { store := none
        messages := [OutMsg.plain "Creating your Jira ticket, please wait...",
          OutMsg.plain ("✅ Success! Jira ticket <" ++ sampleCreated.url ++ "|" ++
            sampleCreated.key ++ "> created in project *" ++
            sampleFinalCtx.jira_ticket_data.project_key ++ "*.")]
        createCalls := [sampleFinalCtx.jira_ticket_data] } :=
  c7_confirm_failure_then_success env0 envCreateOk
    finalStageBs sampleFinalCtx sampleCreated
    "U1" "C1" (some "confirm_create") rfl (fun i h => nomatch h) rfl

/-- C4: when every required field id returned for the chosen collection and
subtype lies in the pre-collected set, the subtype-chosen event moves the
session straight to the similarity stage when candidate duplicates exist and
to the ready-to-create stage when none do, and the resulting stage is never
the sequential field-input stage. -/
theorem c4_skip_law (env : Env) (bs : BotStateData) (ictx : IssueTypeSelectionContext)
    (itype : JiraIssueType) (u c : String) (v : Option String)
    (hdata : bs.context_data = ContextData.issueType ictx)
    (hfind : ictx.available_issue_types.find? (fun it => v == some it.id) = some itype)
    (hpre : ∀ rf ∈ env.requiredFields ictx.selected_project.key itype.name,
        rf.field_id ∈ preCollectedFieldIds) :
    ∃ bs2, (handle_interactive_action env
        { user_id := u, channel_id := c, action_id := "select_jira_issue_type_action",
          action_value := v } (some bs)).store = some bs2 ∧
      (if (env.searchSimilar ictx.selected_project.key
            ictx.enriched_ticket_context.parsed_ticket_details.summary [itype.name]).isEmpty
       then bs2.current_mcp_stage = some stageFinal ∧
            ∃ fc, bs2.context_data = ContextData.final fc
       else bs2.current_mcp_stage = some stageSimilarity ∧
            ∃ sc, bs2.context_data = ContextData.similarity sc) ∧
      bs2.current_mcp_stage ≠ some stageSequential ∧
      ∀ q, bs2.context_data ≠ ContextData.sequential q := by
  have hd : handle_interactive_action env
      { user_id := u, channel_id := c, action_id := "select_jira_issue_type_action",
        action_value := v } (some bs) =
      selectIssueTypeBranch env
        { user_id := u, channel_id := c, action_id := "select_jira_issue_type_action",
          action_value := v } bs := rfl
  have hfilter : (env.requiredFields ictx.selected_project.key itype.name).filter
      (fun rf => !(preCollectedFieldIds.contains rf.field_id)) = [] := by
    rw [List.filter_eq_nil_iff]
    intro rf hrf
    simp only [Bool.not_eq_true', Bool.not_eq_false]
    exact List.elem_eq_true_of_mem (hpre rf hrf)
  rw [hd]
  unfold selectIssueTypeBranch
  rw [hdata]
  dsimp only [validateIssueTypeSelection]
  rw [hfind]
  dsimp only
  rw [hfilter]
  cases hsim : (env.searchSimilar ictx.selected_project.key
      ictx.enriched_ticket_context.parsed_ticket_details.summary [itype.name]).isEmpty with
  | false =>
    exact ⟨_, rfl, ⟨rfl, ⟨_, rfl⟩⟩, by simp [stageSimilarity, stageSequential],
      fun q => by simp⟩
  | true =>
    exact ⟨_, rfl, ⟨rfl, ⟨_, rfl⟩⟩, by simp [stageFinal, stageSequential],
      fun q => by simp⟩

/-- Witness for c4_skip_law: the sample issue-type-selection session, with a
required-fields answer consisting solely of the pre-collected summary and
description ids, and no duplicates found. -/
theorem c4_skip_law_witness :
    issueTypeStageBs.context_data = ContextData.issueType sampleIctx ∧
    (∃ bs2, (handle_interactive_action envPreCollectedOnly
        { user_id := "U1", channel_id := "C1", action_id := "select_jira_issue_type_action",
          action_value := some "10" } (some issueTypeStageBs)).store = some bs2 ∧
      (if (envPreCollectedOnly.searchSimilar
            sampleIctx.selected_project.key
            sampleIctx.enriched_ticket_context.parsed_ticket_details.summary
            [sampleIssueType.name]).isEmpty
       then bs2.current_mcp_stage = some stageFinal ∧
            ∃ fc, bs2.context_data = ContextData.final fc
       else bs2.current_mcp_stage = some stageSimilarity ∧
            ∃ sc, bs2.context_data = ContextData.similarity sc) ∧
      bs2.current_mcp_stage ≠ some stageSequential ∧
      ∀ q, bs2.context_data ≠ ContextData.sequential q) :=
  ⟨rfl, c4_skip_law envPreCollectedOnly
    issueTypeStageBs sampleIctx sampleIssueType "U1" "C1" (some "10") rfl rfl
    (by decide)⟩
theorem c9_extraction_failure_no_session_witness :
    handle_message_im
      { env0 with extract := fun _ => none }
      { user := some "U1", channel := "C1", text := "gibberish text" } none =
      { store := none
        messages := [OutMsg.plain "I had trouble understanding the details. Please try rephrasing."]
        createCalls := [] } :=
  c9_extraction_failure_no_session _ _ "U1" rfl (by decide) rfl (by decide) rfl

/-- C10: when the sequential stage awaits an enumerated-choice answer (the
field at the cursor has a non-empty allowed-values list), an inbound
free-text message is not consumed as that field's answer: the handler falls
through to the new-request path, runs extraction, and overwrites the session
wholesale with a fresh project-selection session built from the new
extraction. -/
theorem c10_pending_choice_text_starts_new_request (env : Env) (ev : MessageEvent)
    (bs : BotStateData) (sctx : SequentialFieldsInputContext) (u : String)
    (field : RequiredFieldDetail) (avs : List AllowedValue) (parsed : ParsedTicketDetails)
    (huser : ev.user = some u) (htext : pyStrip ev.text ≠ "") (hbot : ev.bot_id = none)
    (hsub : ev.subtype ≠ some "bot_message")
    (hstage : bs.current_mcp_stage = some stageSequential)
    (hdata : bs.context_data = ContextData.sequential sctx)
    (hlen : sctx.current_field_prompt_index < sctx.fields_to_collect_sequentially.length)
    (hfield : sctx.fields_to_collect_sequentially.get
      ⟨sctx.current_field_prompt_index, hlen⟩ = field)
    (hav : field.allowed_values = some avs) (havne : avs ≠ [])
    (hext : env.extract (pyStrip ev.text) = some parsed)
    (hcache : env.projectsCache ≠ []) :
    handle_message_im env ev (some bs) =
      { store := some (newRequestBs env ev u parsed env.projectsCache)
        messages := [OutMsg.projectSelect "Select a Jira project."
          (newRequestPctx ev u parsed env.projectsCache)]
        createCalls := [] } := by
  have htext' : (pyStrip ev.text == "") = false := by simpa using htext
  have hsub' : (ev.subtype == some "bot_message") = false := by simpa using hsub
  have hstage' : (bs.current_mcp_stage == some stageSequential) = true := by
    rw [hstage]; simp
  have hcache' : env.projectsCache.isEmpty = false := by
    simpa [List.isEmpty_iff] using hcache
  have hptl : pyTruthyL field.allowed_values = true := by
    rw [hav]
    cases avs with
    | nil => exact absurd rfl havne
    | cons a as => rfl
  have hcons : consumeFieldAnswer env (pyStrip ev.text) bs = Sum.inr (some bs) := by
    unfold consumeFieldAnswer
    simp only [hstage', if_true]
    rw [hdata]
    dsimp only [validateSequential]
    rw [dif_pos hlen, hfield, hptl]
    rfl
  unfold handle_message_im
  rw [huser]
  simp only [htext', hbot, hsub', Option.isSome_none, Bool.or_self, Bool.or_false,
    Bool.false_or, Bool.false_eq_true, if_false, hcons]
  unfold newRequestPath
  dsimp only
  simp only [hext, hcache', Bool.not_false, if_true, Bool.false_eq_true, if_false]
  rfl

/-- Witness for c10_pending_choice_text_starts_new_request: a session
awaiting the Severity dropdown receives a fresh free-text message. -/
theorem c10_pending_choice_text_starts_new_request_witness :
    handle_message_im env0
      { user := some "U1", channel := "C1", text := "the search page times out" }
      (some seqChoiceBs) =
      { store := some (newRequestBs env0
          { user := some "U1", channel := "C1", text := "the search page times out" }
          "U1" sampleParsed env0.projectsCache)
        messages := [OutMsg.projectSelect "Select a Jira project."
          (newRequestPctx
            { user := some "U1", channel := "C1", text := "the search page times out" }
            "U1" sampleParsed env0.projectsCache)]
        createCalls := [] } :=
  c10_pending_choice_text_starts_new_request env0
    { user := some "U1", channel := "C1", text := "the search page times out" }
    seqChoiceBs seqChoiceCtx "U1" sevChoiceField
    [{ id := some "1", name := some "High" }, { id := some "2", name := some "Low" }]
    sampleParsed rfl (by decide) rfl (by decide) rfl rfl (by decide) rfl rfl (by decide)
    rfl (by decide)

/-- C1: the claim says the field map of the creation payload sent to the
tracker contains exactly summary and description from the draft plus every
answered field id.  Running the full valid sequence (choose collection,
choose subtype, answer the one required field, confirm): the session does
collect the answer and finishes with no leftover cursor (the sequential
stage completes into the final stage, whose payload carries the answered
value under its field id), BUT create_jira_ticket never copies
dynamic_fields into the fields dict it builds: the dict's keys are exactly
project, summary, description and issuetype, the answered customfield_1 is
absent, and the function then raises AttributeError on ticket_data.brand
before any payload reaches the tracker. -/
theorem c1_answered_fields_missing_from_creation_payload :
    runEvents envC1 [c1e1, c1e2, c1e3] none = some c1SeqBs ∧
    c1SeqCtx.current_field_prompt_index = 0 ∧
    c1SeqCtx.fields_to_collect_sequentially.length = 1 ∧
    runEvents envC1 [c1e1, c1e2, c1e3, c1e4] none = some c1FinalBs ∧
    c1FinalCtx.jira_ticket_data.dynamic_fields = some [("customfield_1", some "Sev-High")] ∧
    (createTicketBaseFields c1FinalCtx.jira_ticket_data).map Prod.fst =
      ["project", "summary", "description", "issuetype"] ∧
    ((createTicketBaseFields c1FinalCtx.jira_ticket_data).map Prod.fst).contains
      "customfield_1" = false ∧
    create_jira_ticket true (Except.error PyErr.jiraError) c1FinalCtx.jira_ticket_data =
      Except.error (PyErr.attributeError "brand") :=
  ⟨rfl, rfl, rfl, rfl, rfl, rfl, rfl, rfl⟩

/-- C3 counterexample: the claim says that whenever an inbound event's
implied payload type does not match the stored payload, the state machine
rejects it gracefully with a user message AND clears the session.  At the
project-selection stage, an issue-type-chosen event (implying an
issue-type-selection payload) is rejected with the error message but the
session is left in the store, not cleared. -/
theorem c3_mismatch_keeps_session_counterexample :
    handle_interactive_action env0
      { user_id := "U1", channel_id := "C1", action_id := "select_jira_issue_type_action",
        action_value := some "10" } (some projectStageBs) =
      { store := some projectStageBs
        messages := [OutMsg.plain "Error selecting issue type."]
        createCalls := [] } ∧
    (some projectStageBs : Option BotStateData) ≠ none :=
  ⟨rfl, fun h => Option.noConfusion h⟩

/-- C3 as amended: every transition preserves agreement between the stored
stage tag and the stored payload variant; an inbound action whose implied
payload type does not match the stored payload is rejected gracefully with
a user-facing message and never crashes, but the session is cleared only in
the confirm branch — the project-selection, issue-type-selection,
dynamic-field and create-anyway branches leave the stored session unchanged
for retry. -/
theorem c3_agreement_and_graceful_mismatch :
    (∀ (env : Env) (e : InEvent) (store : Option BotStateData),
      (∀ bs, store = some bs → stageAgrees bs = true) →
      ∀ bs', (stepEvent env e store).store = some bs' → stageAgrees bs' = true) ∧
    (∀ (env : Env) (bs : BotStateData) (u c : String) (v : Option String),
      validateProjectSelection bs.context_data = none →
      handle_interactive_action env
        { user_id := u, channel_id := c, action_id := "select_jira_project_action",
          action_value := v } (some bs) =
        { store := some bs, messages := [OutMsg.plain "Error selecting project."],
          createCalls := [] }) ∧
    (∀ (env : Env) (bs : BotStateData) (u c : String) (v : Option String),
      validateIssueTypeSelection bs.context_data = none →
      handle_interactive_action env
        { user_id := u, channel_id := c, action_id := "select_jira_issue_type_action",
          action_value := v } (some bs) =
        { store := some bs, messages := [OutMsg.plain "Error selecting issue type."],
          createCalls := [] }) ∧
    (∀ (env : Env) (bs : BotStateData) (u c : String) (v : Option String) (fid : String),
      validateSequential bs.context_data = none →
      handle_interactive_action env
        { user_id := u, channel_id := c,
          action_id := dynamicFieldSelectActionIdStem ++ fid,
          action_value := v } (some bs) =
        { store := some bs
          messages := [OutMsg.plain "Error processing your selection for the dynamic field."]
          createCalls := [] }) ∧
    (∀ (env : Env) (bs : BotStateData) (u c : String) (v : Option String),
      validateSimilarity bs.context_data = none →
      handle_interactive_action env
        { user_id := u, channel_id := c, action_id := "create_new_ticket_anyway",
          action_value := v } (some bs) =
        { store := some bs, messages := [OutMsg.plain "An error occurred. Please try again."],
          createCalls := [] }) ∧
    (∀ (env : Env) (bs : BotStateData) (u c : String) (v : Option String),
      validateFinal bs.context_data = none →
      handle_interactive_action env
        { user_id := u, channel_id := c, action_id := "confirm_create_ticket_action",
          action_value := v } (some bs) =
        { store := none, messages := [OutMsg.plain "An unexpected error. Please start over."],
          createCalls := [] }) := by
  refine ⟨?_, ?_, ?_, ?_, ?_, ?_⟩
  · intro env e store h bs' hst
    cases e with
    | msg ev => exact stageAgrees_message env ev store h bs' hst
    | act ev => exact stageAgrees_interactive env ev store h bs' hst
  · intro env bs u c v h
    unfold handle_interactive_action selectProjectBranch
    simp only [h]
    rfl
  · intro env bs u c v h
    unfold handle_interactive_action selectIssueTypeBranch
    simp only [h]
    rfl
  · intro env bs u c v fid h
    rw [handle_interactive_dispatch_dynamic env
      { user_id := u, channel_id := c, action_id := dynamicFieldSelectActionIdStem ++ fid,
        action_value := v } bs (Eq.refl false) (Eq.refl false)
      (pyStartswith_append dynamicFieldSelectActionIdStem fid)]
    unfold dynamicFieldSelectBranch
    dsimp only
    rw [h]
  · intro env bs u c v h
    unfold handle_interactive_action createAnywayBranch
    simp only [h]
    rfl
  · intro env bs u c v h
    unfold handle_interactive_action confirmCreateBranch
    simp only [h]
    rfl

/-- Witness for c3_agreement_and_graceful_mismatch: stepping the
project-selection session with the collection choice keeps the
tag-and-payload agreement, and a confirm event against that mismatched
payload is rejected with the start-over message and a cleared session. -/
theorem c3_agreement_and_graceful_mismatch_witness :
    ((stepEvent env0 (InEvent.act chooseAppEvent) (some projectStageBs)).store =
        some issueTypeStageBs ∧
      stageAgrees issueTypeStageBs = true) ∧
    (validateFinal projectStageBs.context_data = none ∧
      handle_interactive_action env0
        { user_id := "U1", channel_id := "C1", action_id := "confirm_create_ticket_action",
          action_value := some "confirm_create" } (some projectStageBs) =
        { store := none, messages := [OutMsg.plain "An unexpected error. Please start over."],
          createCalls := [] }) :=
  ⟨⟨rfl, c3_agreement_and_graceful_mismatch.1 env0 (InEvent.act chooseAppEvent)
      (some projectStageBs) (fun bs h => by cases h; rfl) issueTypeStageBs rfl⟩,
    rfl, c3_agreement_and_graceful_mismatch.2.2.2.2.2 env0 projectStageBs "U1" "C1"
      (some "confirm_create") rfl⟩

/-- C6 counterexample: the claim says the collected value is exactly the
underlying value associated with the chosen option, the option's id when
present.  For an allowed value whose id has 80 characters, the rendered
option carries only the first 75 characters of the id, and answering the
prompt stores that truncation, not the id: av80 has id longId, the rendered
option's value is truncId, the session after the selection holds truncId
under the field id, and truncId differs from longId. -/
theorem c6_truncation_counterexample :
    av80.id = some longId ∧
    buildFieldOptions [av80] = [{ text := "High", value := truncId }] ∧
    (handle_interactive_action env0
        { user_id := "U1", channel_id := "C1"
          action_id := "submit_dynamic_field_select_customfield_1"
          action_value := some truncId } (some seq80Bs)).store =
      some (consumedBs seq80Bs seq80Ctx "customfield_1" (some truncId)) ∧
    dictGet (consumedSctx seq80Ctx "customfield_1" (some truncId)).collected_dynamic_field_values
      "customfield_1" = some (some truncId) ∧
    truncId ≠ longId :=
  ⟨rfl, rfl, rfl, rfl, by decide⟩

/-- C6 as amended: answering the rendered single-choice prompt with an
option stores, under the field's id, exactly the value attached to that
option, which is the option's id truncated to its first 75 characters when
the id is present and non-empty (not the display label); the session then
carries the advanced cursor and re-enters the prompting helper. -/
theorem c6_choice_roundtrip_stores_rendered_value (env : Env) (bs : BotStateData)
    (sctx : SequentialFieldsInputContext) (field : RequiredFieldDetail)
    (av : AllowedValue) (opt : SelectOption) (s u c : String)
    (hdata : bs.context_data = ContextData.sequential sctx)
    (hlen : sctx.current_field_prompt_index < sctx.fields_to_collect_sequentially.length)
    (hfield : sctx.fields_to_collect_sequentially.get
      ⟨sctx.current_field_prompt_index, hlen⟩ = field)
    (hopt : optionOfAllowedValue av = some opt)
    (hid : av.id = some s) (hs : s ≠ "")
    (hrep : pyReplace (dynamicFieldSelectActionIdStem ++ field.field_id)
      dynamicFieldSelectActionIdStem "" = field.field_id) :
    opt.value = (if s.length > 75 then pyTake s 75 else s) ∧
    handle_interactive_action env
      { user_id := u, channel_id := c
        action_id := dynamicFieldSelectActionIdStem ++ field.field_id
        action_value := some opt.value } (some bs) =
      { store := (ask_for_next_required_field env
          (consumedBs bs sctx field.field_id (some opt.value))).store
        messages := OutMsg.plain
            ("You selected: " ++ opt.value ++ " for " ++ field.name ++ ".") ::
          (ask_for_next_required_field env
            (consumedBs bs sctx field.field_id (some opt.value))).messages
        createCalls := (ask_for_next_required_field env
          (consumedBs bs sctx field.field_id (some opt.value))).createCalls } ∧
    dictGet (consumedSctx sctx field.field_id (some opt.value)).collected_dynamic_field_values
      field.field_id = some (some opt.value) := by
  have hsb : (s != "") = true := by simpa using hs
  have hOV : pyOrS av.id (pyOrS av.value av.name) = some s := by
    rw [hid]
    simp [pyOrS, pyTruthyS, hsb]
  have hvalue : opt.value = (if s.length > 75 then pyTake s 75 else s) := by
    unfold optionOfAllowedValue at hopt
    dsimp only at hopt
    rw [hOV] at hopt
    dsimp only at hopt
    rw [if_neg hs] at hopt
    cases hopt
    rfl
  refine ⟨hvalue, ?_, ?_⟩
  · rw [handle_interactive_dispatch_dynamic env
      { user_id := u, channel_id := c
        action_id := dynamicFieldSelectActionIdStem ++ field.field_id
        action_value := some opt.value } bs (Eq.refl false) (Eq.refl false)
      (pyStartswith_append dynamicFieldSelectActionIdStem field.field_id)]
    unfold dynamicFieldSelectBranch
    dsimp only
    rw [hrep, hdata]
    dsimp only [validateSequential]
    rw [dif_pos hlen, hfield]
    simp only [beq_self_eq_true, if_true]
    rfl
  · exact dictGet_dictInsert _ _ _

/-- Witness for c6_choice_roundtrip_stores_rendered_value: the Severity
dropdown of scenario C, answered with the High option, stores the id 1. -/
theorem c6_choice_roundtrip_stores_rendered_value_witness :
    ("1" : String).length ≤ 75 ∧
    optionOfAllowedValue { id := some "1", name := some "High" } =
      some { text := "High", value := "1" } ∧
    (("1" : String) = if ("1" : String).length > 75 then pyTake "1" 75 else "1") ∧
    handle_interactive_action env0
      { user_id := "U1", channel_id := "C1"
        action_id := dynamicFieldSelectActionIdStem ++ sevChoiceField.field_id
        action_value := some "1" } (some seqChoiceBs) =
      { store := (ask_for_next_required_field env0
          (consumedBs seqChoiceBs seqChoiceCtx sevChoiceField.field_id (some "1"))).store
        messages := OutMsg.plain
            ("You selected: " ++ "1" ++ " for " ++ sevChoiceField.name ++ ".") ::
          (ask_for_next_required_field env0
            (consumedBs seqChoiceBs seqChoiceCtx sevChoiceField.field_id (some "1"))).messages
        createCalls := (ask_for_next_required_field env0
          (consumedBs seqChoiceBs seqChoiceCtx sevChoiceField.field_id (some "1"))).createCalls } ∧
    dictGet (consumedSctx seqChoiceCtx sevChoiceField.field_id
        (some "1")).collected_dynamic_field_values
      sevChoiceField.field_id = some (some "1") := by
  have h := c6_choice_roundtrip_stores_rendered_value env0 seqChoiceBs seqChoiceCtx
    sevChoiceField { id := some "1", name := some "High" }
    { text := "High", value := "1" } "1" "U1" "C1"
    rfl (by decide) rfl rfl rfl (by decide) (by decide)
  exact ⟨by decide, rfl, h.1, h.2.1, h.2.2⟩

end SlackJira
